import Mathlib

/-!
Verification of the Hallam FC fixture-to-ICS transformation
(`generate_ics.py`). The Python source is shallowly embedded below:
dictionaries become association lists / structures with `Option` fields,
exceptions become `Except String`, and the `datetime` library calls
(`strptime`, `weekday`, `timedelta`, `strftime`) are modelled by explicit
proleptic-Gregorian calendar arithmetic matching CPython `datetime`
semantics (ordinal day numbers, `weekday()` with Monday = 0).
-/

namespace HallamFC

set_option maxRecDepth 100000

/-! ### Calendar arithmetic (model of CPython `datetime` internals) -/

/-- Gregorian leap-year test, as in CPython `datetime.py`. -/
def isLeap (y : Nat) : Bool :=
  y % 4 == 0 && (y % 100 != 0 || y % 400 == 0)

/-- Number of days in month `m` (1-12) of year `y`. -/
def daysInMonth (y m : Nat) : Nat :=
  if m = 2 then (if isLeap y then 29 else 28)
  else if m = 4 ∨ m = 6 ∨ m = 9 ∨ m = 11 then 30
  else 31

/-- Days in year `y` strictly before month `m` (CPython table plus leap
adjustment). -/
def daysBeforeMonth (y m : Nat) : Nat :=
  (if m ≤ 1 then 0
   else if m = 2 then 31
   else if m = 3 then 59
   else if m = 4 then 90
   else if m = 5 then 120
   else if m = 6 then 151
   else if m = 7 then 181
   else if m = 8 then 212
   else if m = 9 then 243
   else if m = 10 then 273
   else if m = 11 then 304
   else 334)
  + (if 3 ≤ m ∧ isLeap y then 1 else 0)

/-- Days strictly before January 1 of year `y` (proleptic Gregorian,
`y ≥ 1`); closed form as in CPython `_days_before_year`. -/
def daysBeforeYear (y : Nat) : Nat :=
  365 * (y - 1) + (y - 1) / 4 + (y - 1) / 400 - (y - 1) / 100

/-- CPython `date.toordinal`: ordinal 1 is January 1 of year 1. -/
def toordinal (y m d : Nat) : Nat :=
  daysBeforeYear y + daysBeforeMonth y m + d

/-- CPython `date.weekday`: Monday = 0 ... Sunday = 6. -/
def weekday (y m d : Nat) : Nat :=
  (toordinal y m d + 6) % 7

/-- The calendar day after `(y, m, d)`. -/
def nextDay (y m d : Nat) : Nat × Nat × Nat :=
  if d < daysInMonth y m then (y, m, d + 1)
  else if m < 12 then (y, m + 1, 1)
  else (y + 1, 1, 1)

/-- Model of `datetime + timedelta(hours=2)`: add 120 minutes to a
wall-clock datetime, rolling the calendar date over midnight. -/
def addTwoHours (y m d hh mi : Nat) : Nat × Nat × Nat × Nat × Nat :=
  let t := hh * 60 + mi + 120
  if t < 1440 then (y, m, d, t / 60, t % 60)
  else
    match nextDay y m d with
    | (y2, m2, d2) => (y2, m2, d2, (t - 1440) / 60, (t - 1440) % 60)

/-- Absolute minute count of a datetime; the "instant" a datetime denotes. -/
def toMinutes (y m d hh mi : Nat) : Nat :=
  toordinal y m d * 1440 + hh * 60 + mi

/-- Validity of a calendar date, as enforced by `datetime.strptime`. -/
def ValidDate (y m d : Nat) : Prop :=
  1 ≤ y ∧ 1 ≤ m ∧ m ≤ 12 ∧ 1 ≤ d ∧ d ≤ daysInMonth y m

instance (y m d : Nat) : Decidable (ValidDate y m d) := by
  unfold ValidDate; infer_instance

/-! ### String-to-number parsing (model of `strptime` formats) -/

/-- Split a character list on a separator character. -/
def splitOnChar (sep : Char) : List Char → List (List Char)
  | [] => [[]]
  | c :: t =>
    let r := splitOnChar sep t
    if c = sep then [] :: r
    else
      match r with
      | [] => [[c]]
      | g :: gs => (c :: g) :: gs

/-- Decimal digits to a natural number. -/
def digitsToNat (l : List Char) : Nat :=
  l.foldl (fun a c => a * 10 + (c.toNat - 48)) 0

/-- A nonempty all-digit character list. -/
def allDigits (l : List Char) : Bool :=
  !l.isEmpty && l.all Char.isDigit

/-- Model of `datetime.strptime(s, "%Y-%m-%d")`: a 4-digit year (≥ 1),
a 1-2 digit month 1-12, a 1-2 digit day valid for that month. -/
def parseDate (s : String) : Option (Nat × Nat × Nat) :=
  match splitOnChar '-' s.data with
  | [ys, ms, ds] =>
    if allDigits ys ∧ allDigits ms ∧ allDigits ds then
      let y := digitsToNat ys
      let m := digitsToNat ms
      let d := digitsToNat ds
      if ys.length = 4 ∧ ms.length ≤ 2 ∧ ds.length ≤ 2 ∧ ValidDate y m d then
        some (y, m, d)
      else none
    else none
  | _ => none

/-- Model of `datetime.strptime(s, "%H:%M")`: 1-2 digit hour 0-23 and
1-2 digit minute 0-59. -/
def parseTime (s : String) : Option (Nat × Nat) :=
  match splitOnChar ':' s.data with
  | [hs, ms] =>
    if allDigits hs ∧ allDigits ms then
      let hh := digitsToNat hs
      let mi := digitsToNat ms
      if hs.length ≤ 2 ∧ ms.length ≤ 2 ∧ hh ≤ 23 ∧ mi ≤ 59 then
        some (hh, mi)
      else none
    else none
  | _ => none

/-- Zero-pad to two digits (as `strftime` `%m`, `%d`, `%H`, `%M`). -/
def pad2 (n : Nat) : String :=
  if n < 10 then "0" ++ toString n else toString n

/-- Zero-pad to four digits (as `strftime` `%Y`). -/
def pad4 (n : Nat) : String :=
  if n < 10 then "000" ++ toString n
  else if n < 100 then "00" ++ toString n
  else if n < 1000 then "0" ++ toString n
  else toString n

/-- `strftime("%Y%m%dT%H%M%SZ")` with seconds fixed at 00. -/
def formatDT (y m d hh mi : Nat) : String :=
  pad4 y ++ pad2 m ++ pad2 d ++ "T" ++ pad2 hh ++ pad2 mi ++ "00Z"

/-! ### Text escaping (model of `str.replace` and `escape_ics_text`) -/

/-- Python `str.replace` with a single-character pattern: substitute every
occurrence of `a` by `rep`, left to right. -/
def replaceChar (a : Char) (rep : List Char) : List Char → List Char
  | [] => []
  | c :: rest =>
    if c = a then rep ++ replaceChar a rep rest
    else c :: replaceChar a rep rest

/-- Python `str.replace` with a two-character pattern `[a, b]`: scan left to
right, replacing non-overlapping occurrences by `rep`. -/
def replace2 (a b : Char) (rep : List Char) : List Char → List Char
  | [] => []
  | [c] => [c]
  | c :: d :: rest =>
    if c = a ∧ d = b then rep ++ replace2 a b rep rest
    else c :: replace2 a b rep (d :: rest)

/-- `escape_ics_text` from the source: backslash first, then semicolon,
then comma, then literal newline, each via `str.replace`. -/
def escapeList (l : List Char) : List Char :=
  replaceChar '\n' ['\\', 'n']
    (replaceChar ',' ['\\', ',']
      (replaceChar ';' ['\\', ';']
        (replaceChar '\\' ['\\', '\\'] l)))

/-- `escape_ics_text` on strings. -/
def escape_ics_text (s : String) : String :=
  String.mk (escapeList s.data)

/-- The inverse substitutions in reverse order, as the spec describes the
round-trip: backslash-n to newline, backslash-comma to comma,
backslash-semicolon to semicolon, double backslash to backslash. -/
def unescapeList (l : List Char) : List Char :=
  replace2 '\\' '\\' ['\\']
    (replace2 '\\' ';' [';']
      (replace2 '\\' ',' [',']
        (replace2 '\\' 'n' ['\n'] l)))

/-- The spec-side reverse mapping on strings. -/
def unescape_ics_text (s : String) : String :=
  String.mk (unescapeList s.data)

/-- `true` when no backslash in the list is immediately followed by the
letter `n`. -/
def noBslashN : List Char → Bool
  | c :: d :: rest => !(c == '\\' && d == 'n') && noBslashN (d :: rest)
  | _ => true

/-! ### Data model -/

/-- A venue record `{name, address}` from `grounds.json`. -/
structure Ground where
  name : String
  address : String
deriving DecidableEq

/-- One fixture record from the season JSON. Optional fields model keys
that may be absent; an absent or JSON-`null` `kick_off` is `none`, while a
present-but-empty string is `some ""`. -/
structure Fixture where
  opponent : String
  competition : String
  is_home : Bool
  date : String
  kick_off : Option String := none
  away_ground : Option Ground := none
  last_updated : Option String := none
  version : Option Nat := none
deriving DecidableEq

/-- The grounds lookup: club name to venue. -/
abbrev Grounds := List (String × Ground)

/-- Python `dict.get` on the grounds lookup. -/
def groundsGet (g : Grounds) (k : String) : Option Ground :=
  (g.find? (fun p => p.1 == k)).map (fun p => p.2)

/-! ### The transformation (embedding of `generate_ics.py`) -/

/-- `re.sub(r"[^a-zA-Z0-9]", "", s.lower())`: lower-case, then keep only
ASCII letters and digits. -/
def cleanAlnum (s : String) : String :=
  String.mk ((s.data.map Char.toLower).filter Char.isAlphanum)

/-- `get_default_kick_off`: look at the weekday of the parsed date, 15:00 for
Saturday/Sunday (weekday 5 or 6), 19:45 otherwise; an unparseable date
raises (models the `strptime` `ValueError`). -/
def get_default_kick_off (date_str : String) : Except String String :=
  match parseDate date_str with
  | none =>
    Except.error ("time data " ++ date_str ++ " does not match format %Y-%m-%d")
  | some (y, m, d) =>
    Except.ok (if 5 ≤ weekday y m d then "15:00" else "19:45")

/-- `get_kick_off_time`: the fixture value when present and truthy
(nonempty), otherwise the weekday default. -/
def get_kick_off_time (f : Fixture) : Except String String :=
  match f.kick_off with
  | some s => if s = "" then get_default_kick_off f.date else Except.ok s
  | none => get_default_kick_off f.date

/-- `generate_uid`: the source also computes `get_kick_off_time` (whose
result is unused but whose exception propagates), then returns the
dash-joined identifier without date or time. -/
def generate_uid (f : Fixture) (season : String) : Except String String :=
  match get_kick_off_time f with
  | Except.error e => Except.error e
  | Except.ok _ =>
    Except.ok ("hallam-fc-" ++ season ++ "-" ++ cleanAlnum f.opponent ++ "-"
      ++ cleanAlnum f.competition ++ "-"
      ++ (if f.is_home then "home" else "away"))

/-- `format_datetime`: parse date and time, then format as
`YYYYMMDDTHHMMSSZ`. -/
def format_datetime (date_str time_str : String) : Except String String :=
  match parseDate date_str, parseTime time_str with
  | some (y, m, d), some (hh, mi) => Except.ok (formatDT y m d hh mi)
  | _, _ =>
    Except.error ("time data does not match format: " ++ date_str ++ " "
      ++ time_str)

/-- The summary line text: word order depends on home/away. -/
def summaryText (f : Fixture) : String :=
  if f.is_home then "👕 Hallam FC v " ++ f.opponent
  else f.opponent ++ " v 👕 Hallam FC"

/-- The description template with opponent, competition and the fixed
promotional links. -/
def descriptionText (f : Fixture) : String :=
  "⚽ Watch Hallam FC take on " ++ f.opponent ++ " in the " ++ f.competition
    ++ ".\n\nCheck the website for tickets, news and updates:\nhttps://hallamfc.co.uk\n\nJoin the discussion on X:\nhttps://x.com/HallamFC1860\n\nCheck for highlights on YouTube:\nhttps://www.youtube.com/@hallamfc1860"

/-- Venue text `"<name>, <address>"`. -/
def groundAddr (g : Ground) : String :=
  g.name ++ ", " ++ g.address

/-- Venue resolution: home fixtures use the home address; away fixtures
look the opponent up in the grounds data and fail when absent (the source
never consults the `away_ground` field of the fixture). The source message
wraps the opponent name in single quotation marks, elided here. -/
def resolveLocation (grounds : Grounds) (home_address : String) (f : Fixture) :
    Except String String :=
  if f.is_home then Except.ok home_address
  else
    match groundsGet grounds f.opponent with
    | some og => Except.ok (groundAddr og)
    | none =>
      Except.error ("Opponent " ++ f.opponent
        ++ " not found in grounds.json. Please add this club to the grounds data.")

/-- The per-fixture body of the `for` loop in `generate_ics_content`,
producing one VEVENT block; `now` models `datetime.utcnow().isoformat()+Z`,
used only when the fixture lacks `last_updated`. -/
def fixtureEvent (grounds : Grounds) (home_address season now : String)
    (f : Fixture) : Except String (List String) :=
  match generate_uid f season with
  | Except.error e => Except.error e
  | Except.ok uid =>
    match get_kick_off_time f with
    | Except.error e => Except.error e
    | Except.ok kick_off_time =>
      match format_datetime f.date kick_off_time with
      | Except.error e => Except.error e
      | Except.ok start_time =>
        match parseDate f.date, parseTime kick_off_time with
        | some (y, m, d), some (hh, mi) =>
          match addTwoHours y m d hh mi with
          | (y2, m2, d2, h2, mi2) =>
            let end_time := formatDT y2 m2 d2 h2 mi2
            let summary := summaryText f
            let description := escape_ics_text (descriptionText f)
            match resolveLocation grounds home_address f with
            | Except.error e => Except.error e
            | Except.ok location =>
              let last_updated := f.last_updated.getD now
              let version := f.version.getD 0
              Except.ok ["BEGIN:VEVENT",
                "UID:" ++ uid,
                "DTSTAMP:" ++ last_updated,
                "DTSTART:" ++ start_time,
                "DTEND:" ++ end_time,
                "SUMMARY:" ++ summary,
                "DESCRIPTION:" ++ description,
                "LOCATION:" ++ location,
                "STATUS:CONFIRMED",
                "SEQUENCE:" ++ toString version,
                "TRANSP:TRANSPARENT",
                "END:VEVENT",
                ""]
        | _, _ =>
          Except.error ("time data does not match format: " ++ f.date ++ " "
            ++ kick_off_time)

/-- The fixed VCALENDAR header lines. -/
def calendarHeader (season : String) : List String :=
  ["BEGIN:VCALENDAR",
   "VERSION:2.0",
   "PRODID:-//Hallam FC//Fixtures Calendar//" ++ season ++ "//EN",
   "CALSCALE:GREGORIAN",
   "METHOD:PUBLISH",
   "X-WR-CALNAME:Hallam FC Fixtures " ++ season,
   "X-WR-CALDESC:All Hallam FC football fixtures for the " ++ season ++ " season",
   "X-WR-TIMEZONE:Europe/London",
   ""]

/-- The `for` loop over fixtures: events accumulate in input order and any
failure aborts the whole run. -/
def eventsAll (grounds : Grounds) (home_address season now : String) :
    List Fixture → Except String (List String)
  | [] => Except.ok []
  | f :: rest =>
    match fixtureEvent grounds home_address season now f with
    | Except.error e => Except.error e
    | Except.ok ev =>
      match eventsAll grounds home_address season now rest with
      | Except.error e => Except.error e
      | Except.ok evs => Except.ok (ev ++ evs)

/-- `generate_ics_content`: resolve the home ground first (fatal when
absent), then emit the header, every event and the footer, joined with
line feeds. -/
def generate_ics_content (data : List Fixture) (season : String)
    (grounds : Grounds) (now : String) : Except String String :=
  match groundsGet grounds "Hallam" with
  | none =>
    Except.error "Hallam not found in grounds.json. Please add Hallam to the grounds data."
  | some hallam_ground =>
    let home_address := groundAddr hallam_ground
    match eventsAll grounds home_address season now data with
    | Except.error e => Except.error e
    | Except.ok evs =>
      Except.ok (String.intercalate "\n"
        (calendarHeader season ++ evs ++ ["END:VCALENDAR"]))

/-! ### Block decomposition of escaped text -/



/-- Escaped text decomposes into per-character blocks. -/
def blocks (f : Char → List Char) : List Char → List Char
  | [] => []
  | c :: t => f c ++ blocks f t

/-- Per-character form of the full escape substitution. -/
def escBlock (c : Char) : List Char :=
  if c = '\\' then ['\\', '\\']
  else if c = ';' then ['\\', ';']
  else if c = ',' then ['\\', ',']
  else if c = '\n' then ['\\', 'n']
  else [c]

/-- Per-character form after undoing the backslash-n substitution. -/
def b1Block (c : Char) : List Char :=
  if c = '\\' then ['\\', '\\']
  else if c = ';' then ['\\', ';']
  else if c = ',' then ['\\', ',']
  else if c = '\n' then ['\n']
  else [c]

/-- Per-character form after also undoing the comma substitution. -/
def b2Block (c : Char) : List Char :=
  if c = '\\' then ['\\', '\\']
  else if c = ';' then ['\\', ';']
  else if c = ',' then [',']
  else if c = '\n' then ['\n']
  else [c]

/-- Per-character form after also undoing the semicolon substitution. -/
def b3Block (c : Char) : List Char :=
  if c = '\\' then ['\\', '\\']
  else if c = ';' then [';']
  else if c = ',' then [',']
  else if c = '\n' then ['\n']
  else [c]

/-! ### Concrete example data -/

/-- The home venue used in the examples. -/
def exVenue : Ground := ⟨"Sandygate", "Sandygate Road, Sheffield S10 5SE"⟩

/-- A grounds lookup containing the home club and one opponent. -/
def exGrounds : Grounds :=
  [("Hallam", exVenue), ("Example Town", ⟨"Example Park", "1 Example Road"⟩)]

/-- A grounds lookup with no entry for the home club. -/
def exGroundsNoHallam : Grounds :=
  [("Example Town", ⟨"Example Park", "1 Example Road"⟩)]

/-- A home fixture on a Saturday with no explicit kickoff and no
`last_updated`. -/
def exHome : Fixture :=
  { opponent := "Example Town"
    competition := "League Cup"
    is_home := true
    date := "2025-03-08" }

/-- An away fixture whose opponent is missing from the grounds lookup but
which carries an inline `away_ground`. -/
def exAwayMissing : Fixture :=
  { opponent := "Nowhere FC"
    competition := "League"
    is_home := false
    date := "2024-10-05"
    kick_off := some "15:00"
    away_ground := some ⟨"Inline Park", "Inline Road"⟩ }

/-- A home fixture whose opponent name contains a comma. -/
def exCommaOpp : Fixture :=
  { opponent := "A, B"
    competition := "League"
    is_home := true
    date := "2024-10-05"
    kick_off := some "19:00"
    last_updated := some "2024-01-01T00:00:00Z"
    version := some 2 }

/-- A home fixture kicking off at 23:30, so the end time crosses
midnight (and a month boundary). -/
def exLate : Fixture :=
  { opponent := "Example Town"
    competition := "League"
    is_home := true
    date := "2024-06-30"
    kick_off := some "23:30"
    last_updated := some "2024-01-01T00:00:00Z" }

/-- A fixture with an unparseable date (month 13). -/
def exBadDate : Fixture :=
  { opponent := "Example Town"
    competition := "League"
    is_home := true
    date := "2024-13-01"
    kick_off := some "15:00" }

/-- Two fixtures identical except for `date` and `kick_off`. -/
def exUidA : Fixture :=
  { opponent := "Example Town"
    competition := "League Cup"
    is_home := true
    date := "2024-09-07"
    kick_off := some "19:00" }

/-- See `exUidA`. -/
def exUidB : Fixture :=
  { opponent := "Example Town"
    competition := "League Cup"
    is_home := true
    date := "2025-03-08"
    kick_off := some "15:00" }

/-- The VEVENT block that `fixtureEvent` derives from `exHome`. -/
def exHomeEvent : List String :=
  ["BEGIN:VEVENT",
   "UID:hallam-fc-2024-2025-exampletown-leaguecup-home",
   "DTSTAMP:NOW",
   "DTSTART:20250308T150000Z",
   "DTEND:20250308T170000Z",
   "SUMMARY:👕 Hallam FC v Example Town",
   "DESCRIPTION:" ++ escape_ics_text (descriptionText exHome),
   "LOCATION:Sandygate, Sandygate Road, Sheffield S10 5SE",
   "STATUS:CONFIRMED",
   "SEQUENCE:0",
   "TRANSP:TRANSPARENT",
   "END:VEVENT",
   ""]

/-! ### Lemmas: escaping and the reverse substitutions -/

theorem replaceChar_append (a : Char) (rep u v : List Char) :
    replaceChar a rep (u ++ v) = replaceChar a rep u ++ replaceChar a rep v := by
  induction u with
  | nil => rfl
  | cons c t ih =>
    by_cases h : c = a <;> simp [replaceChar, h, ih]

theorem escapeList_cons (c : Char) (t : List Char) :
    escapeList (c :: t) = escBlock c ++ escapeList t := by
  by_cases h1 : c = '\\'
  · subst h1; simp [escapeList, replaceChar, replaceChar_append, escBlock]
  · by_cases h2 : c = ';'
    · subst h2; simp [escapeList, replaceChar, replaceChar_append, escBlock]
    · by_cases h3 : c = ','
      · subst h3; simp [escapeList, replaceChar, replaceChar_append, escBlock]
      · by_cases h4 : c = '\n'
        · subst h4; simp [escapeList, replaceChar, replaceChar_append, escBlock]
        · simp [escapeList, replaceChar, replaceChar_append, escBlock, h1, h2, h3, h4]

theorem escapeList_eq_blocks (l : List Char) : escapeList l = blocks escBlock l := by
  induction l with
  | nil => rfl
  | cons c t ih => rw [escapeList_cons, ih]; rfl

theorem replace2_hit (a b : Char) (rep t : List Char) :
    replace2 a b rep (a :: b :: t) = rep ++ replace2 a b rep t := by
  simp [replace2]

theorem replace2_skip (a b : Char) (rep : List Char) (c : Char) (t : List Char)
    (h : ¬(c = a ∧ t.head? = some b)) :
    replace2 a b rep (c :: t) = c :: replace2 a b rep t := by
  cases t with
  | nil => rfl
  | cons d r =>
    have hcd : ¬(c = a ∧ d = b) := by
      intro hx
      exact h ⟨hx.1, by simp [hx.2]⟩
    simp [replace2, hcd]

theorem noBslashN_tail (c : Char) (t : List Char) (h : noBslashN (c :: t) = true) :
    noBslashN t = true := by
  cases t with
  | nil => rfl
  | cons d r => simp [noBslashN, Bool.and_eq_true] at h; exact h.2

theorem noBslashN_head (t : List Char) (h : noBslashN ('\\' :: t) = true) :
    t.head? ≠ some 'n' := by
  cases t with
  | nil => simp
  | cons d r =>
    simp [noBslashN, Bool.and_eq_true] at h
    simp [h.1]

theorem blocks_escBlock_head (t : List Char) (h : t.head? ≠ some 'n') :
    (blocks escBlock t).head? ≠ some 'n' := by
  cases t with
  | nil => simp [blocks]
  | cons c r =>
    have hc : c ≠ 'n' := by simpa using h
    by_cases h1 : c = '\\'
    · subst h1; simp [blocks, escBlock]
    · by_cases h2 : c = ';'
      · subst h2; simp [blocks, escBlock]
      · by_cases h3 : c = ','
        · subst h3; simp [blocks, escBlock]
        · by_cases h4 : c = '\n'
          · subst h4; simp [blocks, escBlock]
          · simp [blocks, escBlock, h1, h2, h3, h4, hc]

theorem blocks_b1_head (t : List Char) : (blocks b1Block t).head? ≠ some ',' := by
  cases t with
  | nil => simp [blocks]
  | cons c r =>
    by_cases h1 : c = '\\'
    · subst h1; simp [blocks, b1Block]
    · by_cases h2 : c = ';'
      · subst h2; simp [blocks, b1Block]
      · by_cases h3 : c = ','
        · subst h3; simp [blocks, b1Block]
        · by_cases h4 : c = '\n'
          · subst h4; simp [blocks, b1Block]
          · simp [blocks, b1Block, h1, h2, h3, h4]

theorem blocks_b2_head (t : List Char) : (blocks b2Block t).head? ≠ some ';' := by
  cases t with
  | nil => simp [blocks]
  | cons c r =>
    by_cases h1 : c = '\\'
    · subst h1; simp [blocks, b2Block]
    · by_cases h2 : c = ';'
      · subst h2; simp [blocks, b2Block]
      · by_cases h3 : c = ','
        · subst h3; simp [blocks, b2Block]
        · by_cases h4 : c = '\n'
          · subst h4; simp [blocks, b2Block]
          · simp [blocks, b2Block, h1, h2, h3, h4]

theorem unescape_pass1 (l : List Char) (h : noBslashN l = true) :
    replace2 '\\' 'n' ['\n'] (blocks escBlock l) = blocks b1Block l := by
  induction l with
  | nil => rfl
  | cons c t ih =>
    have ht := noBslashN_tail c t h
    by_cases h1 : c = '\\'
    · subst h1
      have hhd := blocks_escBlock_head t (noBslashN_head t h)
      show replace2 '\\' 'n' ['\n'] ('\\' :: '\\' :: blocks escBlock t)
        = '\\' :: '\\' :: blocks b1Block t
      rw [replace2_skip _ _ _ _ _ (by simp), replace2_skip _ _ _ _ _ (by simp [hhd]), ih ht]
    · by_cases h2 : c = ';'
      · subst h2
        show replace2 '\\' 'n' ['\n'] ('\\' :: ';' :: blocks escBlock t)
          = '\\' :: ';' :: blocks b1Block t
        rw [replace2_skip _ _ _ _ _ (by simp), replace2_skip _ _ _ _ _ (by simp), ih ht]
      · by_cases h3 : c = ','
        · subst h3
          show replace2 '\\' 'n' ['\n'] ('\\' :: ',' :: blocks escBlock t)
            = '\\' :: ',' :: blocks b1Block t
          rw [replace2_skip _ _ _ _ _ (by simp), replace2_skip _ _ _ _ _ (by simp), ih ht]
        · by_cases h4 : c = '\n'
          · subst h4
            show replace2 '\\' 'n' ['\n'] ('\\' :: 'n' :: blocks escBlock t)
              = '\n' :: blocks b1Block t
            rw [replace2_hit, ih ht]; rfl
          · show replace2 '\\' 'n' ['\n'] (escBlock c ++ blocks escBlock t)
              = b1Block c ++ blocks b1Block t
            rw [show escBlock c = [c] from by simp [escBlock, h1, h2, h3, h4],
              show b1Block c = [c] from by simp [b1Block, h1, h2, h3, h4]]
            show replace2 '\\' 'n' ['\n'] (c :: blocks escBlock t) = c :: blocks b1Block t
            rw [replace2_skip _ _ _ _ _ (by simp [h1]), ih ht]


theorem unescape_pass2 (l : List Char) :
    replace2 '\\' ',' [','] (blocks b1Block l) = blocks b2Block l := by
  induction l with
  | nil => rfl
  | cons c t ih =>
    by_cases h1 : c = '\\'
    · subst h1
      have hhd := blocks_b1_head t
      show replace2 '\\' ',' [','] ('\\' :: '\\' :: blocks b1Block t)
        = '\\' :: '\\' :: blocks b2Block t
      rw [replace2_skip _ _ _ _ _ (by simp), replace2_skip _ _ _ _ _ (by simp [hhd]), ih]
    · by_cases h2 : c = ';'
      · subst h2
        show replace2 '\\' ',' [','] ('\\' :: ';' :: blocks b1Block t)
          = '\\' :: ';' :: blocks b2Block t
        rw [replace2_skip _ _ _ _ _ (by simp), replace2_skip _ _ _ _ _ (by simp), ih]
      · by_cases h3 : c = ','
        · subst h3
          show replace2 '\\' ',' [','] ('\\' :: ',' :: blocks b1Block t)
            = ',' :: blocks b2Block t
          rw [replace2_hit, ih]; rfl
        · by_cases h4 : c = '\n'
          · subst h4
            show replace2 '\\' ',' [','] ('\n' :: blocks b1Block t)
              = '\n' :: blocks b2Block t
            rw [replace2_skip _ _ _ _ _ (by simp), ih]
          · show replace2 '\\' ',' [','] (b1Block c ++ blocks b1Block t)
              = b2Block c ++ blocks b2Block t
            rw [show b1Block c = [c] from by simp [b1Block, h1, h2, h3, h4],
              show b2Block c = [c] from by simp [b2Block, h1, h2, h3, h4]]
            show replace2 '\\' ',' [','] (c :: blocks b1Block t) = c :: blocks b2Block t
            rw [replace2_skip _ _ _ _ _ (by simp [h1]), ih]

theorem unescape_pass3 (l : List Char) :
    replace2 '\\' ';' [';'] (blocks b2Block l) = blocks b3Block l := by
  induction l with
  | nil => rfl
  | cons c t ih =>
    by_cases h1 : c = '\\'
    · subst h1
      have hhd := blocks_b2_head t
      show replace2 '\\' ';' [';'] ('\\' :: '\\' :: blocks b2Block t)
        = '\\' :: '\\' :: blocks b3Block t
      rw [replace2_skip _ _ _ _ _ (by simp), replace2_skip _ _ _ _ _ (by simp [hhd]), ih]
    · by_cases h2 : c = ';'
      · subst h2
        show replace2 '\\' ';' [';'] ('\\' :: ';' :: blocks b2Block t)
          = ';' :: blocks b3Block t
        rw [replace2_hit, ih]; rfl
      · by_cases h3 : c = ','
        · subst h3
          show replace2 '\\' ';' [';'] (',' :: blocks b2Block t)
            = ',' :: blocks b3Block t
          rw [replace2_skip _ _ _ _ _ (by simp), ih]
        · by_cases h4 : c = '\n'
          · subst h4
            show replace2 '\\' ';' [';'] ('\n' :: blocks b2Block t)
              = '\n' :: blocks b3Block t
            rw [replace2_skip _ _ _ _ _ (by simp), ih]
          · show replace2 '\\' ';' [';'] (b2Block c ++ blocks b2Block t)
              = b3Block c ++ blocks b3Block t
            rw [show b2Block c = [c] from by simp [b2Block, h1, h2, h3, h4],
              show b3Block c = [c] from by simp [b3Block, h1, h2, h3, h4]]
            show replace2 '\\' ';' [';'] (c :: blocks b2Block t) = c :: blocks b3Block t
            rw [replace2_skip _ _ _ _ _ (by simp [h1]), ih]

theorem unescape_pass4 (l : List Char) :
    replace2 '\\' '\\' ['\\'] (blocks b3Block l) = l := by
  induction l with
  | nil => rfl
  | cons c t ih =>
    by_cases h1 : c = '\\'
    · subst h1
      show replace2 '\\' '\\' ['\\'] ('\\' :: '\\' :: blocks b3Block t) = '\\' :: t
      rw [replace2_hit, ih]; rfl
    · by_cases h2 : c = ';'
      · subst h2
        show replace2 '\\' '\\' ['\\'] (';' :: blocks b3Block t) = ';' :: t
        rw [replace2_skip _ _ _ _ _ (by simp), ih]
      · by_cases h3 : c = ','
        · subst h3
          show replace2 '\\' '\\' ['\\'] (',' :: blocks b3Block t) = ',' :: t
          rw [replace2_skip _ _ _ _ _ (by simp), ih]
        · by_cases h4 : c = '\n'
          · subst h4
            show replace2 '\\' '\\' ['\\'] ('\n' :: blocks b3Block t) = '\n' :: t
            rw [replace2_skip _ _ _ _ _ (by simp), ih]
          · show replace2 '\\' '\\' ['\\'] (b3Block c ++ blocks b3Block t) = c :: t
            rw [show b3Block c = [c] from by simp [b3Block, h1, h2, h3, h4]]
            show replace2 '\\' '\\' ['\\'] (c :: blocks b3Block t) = c :: t
            rw [replace2_skip _ _ _ _ _ (by simp [h1]), ih]

theorem unescape_escape_list (l : List Char) (h : noBslashN l = true) :
    unescapeList (escapeList l) = l := by
  rw [escapeList_eq_blocks]
  show replace2 '\\' '\\' ['\\']
      (replace2 '\\' ';' [';']
        (replace2 '\\' ',' [',']
          (replace2 '\\' 'n' ['\n'] (blocks escBlock l)))) = l
  rw [unescape_pass1 l h, unescape_pass2, unescape_pass3, unescape_pass4]

/-! ### Lemmas: calendar arithmetic -/


theorem isLeap_iff (y : Nat) :
    isLeap y = true ↔ (y % 4 = 0 ∧ (y % 100 ≠ 0 ∨ y % 400 = 0)) := by
  simp [isLeap, Bool.and_eq_true, Bool.or_eq_true]

set_option maxHeartbeats 2000000 in
theorem daysBeforeYear_succ (y : Nat) (hy : 1 ≤ y) :
    daysBeforeYear (y + 1) = daysBeforeYear y + (if isLeap y then 366 else 365) := by
  have hiff := isLeap_iff y
  cases hL : isLeap y
  · rw [hL] at hiff
    simp only [Bool.false_eq_true, false_iff] at hiff
    simp only [daysBeforeYear, hL, Bool.false_eq_true, if_false, Nat.add_sub_cancel]
    omega
  · rw [hL] at hiff
    simp only [true_iff] at hiff
    simp only [daysBeforeYear, hL, if_true, Nat.add_sub_cancel]
    omega

theorem daysBeforeMonth_succ (y m : Nat) (h1 : 1 ≤ m) (h2 : m ≤ 11) :
    daysBeforeMonth y (m + 1) = daysBeforeMonth y m + daysInMonth y m := by
  interval_cases m <;> cases hL : isLeap y <;>
    simp [daysBeforeMonth, daysInMonth, hL]

theorem daysInMonth_twelve (y : Nat) : daysInMonth y 12 = 31 := by
  simp [daysInMonth]

theorem daysBeforeMonth_twelve (y : Nat) :
    daysBeforeMonth y 12 = 334 + (if isLeap y then 1 else 0) := by
  cases hL : isLeap y <;> simp [daysBeforeMonth, hL]

theorem toordinal_nextDay (y m d : Nat) (hv : ValidDate y m d) :
    toordinal (nextDay y m d).1 (nextDay y m d).2.1 (nextDay y m d).2.2
      = toordinal y m d + 1 := by
  obtain ⟨hy, hm1, hm2, hd1, hd2⟩ := hv
  unfold nextDay
  by_cases hlt : d < daysInMonth y m
  · simp only [hlt, if_true, toordinal]
    omega
  · have hd : d = daysInMonth y m := by omega
    rw [if_neg hlt]
    by_cases hm : m < 12
    · rw [if_pos hm]
      show toordinal y (m + 1) 1 = toordinal y m d + 1
      simp only [toordinal]
      rw [daysBeforeMonth_succ y m hm1 (by omega)]
      omega
    · have hm12 : m = 12 := by omega
      subst hm12
      rw [if_neg hm]
      show toordinal (y + 1) 1 1 = toordinal y 12 d + 1
      have h31 : d = 31 := by rw [hd, daysInMonth_twelve]
      simp only [toordinal]
      rw [daysBeforeYear_succ y hy, daysBeforeMonth_twelve]
      have hb1 : daysBeforeMonth (y + 1) 1 = 0 := by simp [daysBeforeMonth]
      rw [hb1]
      cases hL : isLeap y <;> simp only [hL, Bool.false_eq_true, if_false, if_true] <;> omega

/-! ### Support lemmas about the pipeline -/

theorem format_datetime_parses (d t s : String)
    (h : format_datetime d t = Except.ok s) :
    ∃ y m dd, parseDate d = some (y, m, dd)
      ∧ ∃ hh mi, parseTime t = some (hh, mi) := by
  unfold format_datetime at h
  split at h
  · next y m dd hh mi hpd hpt =>
    exact ⟨y, m, dd, hpd, hh, mi, hpt⟩
  · exact absurd h (by simp)

theorem fixtureEvent_now_irrelevant (grounds : Grounds)
    (home_address season now1 now2 : String) (f : Fixture)
    (h : f.last_updated.isSome = true) :
    fixtureEvent grounds home_address season now1 f
      = fixtureEvent grounds home_address season now2 f := by
  obtain ⟨v, hv⟩ := Option.isSome_iff_exists.mp h
  simp [fixtureEvent, hv]

theorem eventsAll_now_irrelevant (grounds : Grounds)
    (home_address season now1 now2 : String) (data : List Fixture)
    (h : ∀ f ∈ data, f.last_updated.isSome = true) :
    eventsAll grounds home_address season now1 data
      = eventsAll grounds home_address season now2 data := by
  induction data with
  | nil => rfl
  | cons f rest ih =>
    have h1 := h f (by simp)
    have h2 : ∀ g ∈ rest, g.last_updated.isSome = true :=
      fun g hg => h g (by simp [hg])
    show (match fixtureEvent grounds home_address season now1 f with
      | Except.error e => Except.error e
      | Except.ok ev =>
        match eventsAll grounds home_address season now1 rest with
        | Except.error e => Except.error e
        | Except.ok evs => Except.ok (ev ++ evs))
      = eventsAll grounds home_address season now2 (f :: rest)
    rw [fixtureEvent_now_irrelevant grounds home_address season now1 now2 f h1, ih h2]
    rfl

theorem eventsAll_error_of_mem (grounds : Grounds)
    (home_address season now : String) (data : List Fixture) (f : Fixture)
    (e : String) (hf : f ∈ data)
    (he : fixtureEvent grounds home_address season now f = Except.error e) :
    ∃ e2, eventsAll grounds home_address season now data = Except.error e2 := by
  induction data with
  | nil => cases hf
  | cons g rest ih =>
    rcases List.mem_cons.mp hf with rfl | hmem
    · exact ⟨e, by simp [eventsAll, he]⟩
    · cases hg : fixtureEvent grounds home_address season now g with
      | error e3 => exact ⟨e3, by simp [eventsAll, hg]⟩
      | ok ev =>
        obtain ⟨e2, h2⟩ := ih hmem
        exact ⟨e2, by simp [eventsAll, hg, h2]⟩

/-! ### Claim C1: away fixture with the opponent missing from the lookup -/

/-- Claim C1 counterexample: an away fixture whose opponent has no grounds
entry but which supplies an inline `away_ground` still makes generation
fail naming the opponent; the inline venue is never used, refuting the
claimed fallback. -/
theorem claim_c1_counterexample :
    generate_ics_content [exAwayMissing] "2024-2025" exGrounds "2025-01-01T00:00:00Z"
      = Except.error "Opponent Nowhere FC not found in grounds.json. Please add this club to the grounds data." := rfl

/-- Claim C1 (amended): for every away fixture with parseable date and
kickoff whose opponent has no entry in the grounds lookup, event
derivation fails with a message naming the opponent, regardless of any
inline `away_ground` on the fixture. -/
theorem claim_c1_away_ground_ignored (grounds : Grounds)
    (home_address season now t : String) (f : Fixture)
    (hhome : f.is_home = false)
    (hmiss : groundsGet grounds f.opponent = none)
    (hko : get_kick_off_time f = Except.ok t)
    (hfmt : ∃ st, format_datetime f.date t = Except.ok st) :
    fixtureEvent grounds home_address season now f
      = Except.error ("Opponent " ++ f.opponent
          ++ " not found in grounds.json. Please add this club to the grounds data.") := by
  obtain ⟨st, hst⟩ := hfmt
  obtain ⟨y, m, dd, hpd, hh, mi, hpt⟩ := format_datetime_parses _ _ _ hst
  simp [fixtureEvent, generate_uid, hko, hst, hpd, hpt, resolveLocation, hhome, hmiss]

/-- Claim C1 witness: the amended statement at the concrete away fixture
`exAwayMissing`. -/
theorem claim_c1_witness :
    fixtureEvent exGrounds "Sandygate, Sandygate Road, Sheffield S10 5SE"
        "2024-2025" "NOW" exAwayMissing
      = Except.error "Opponent Nowhere FC not found in grounds.json. Please add this club to the grounds data." :=
  claim_c1_away_ground_ignored exGrounds _ _ _ "15:00" exAwayMissing rfl rfl rfl
    ⟨"20241005T150000Z", rfl⟩

/-! ### Claim C2: which free-text fields are escaped -/

/-- Claim C2 counterexample: the emitted SUMMARY line carries the raw
summary text even though escaping would change it (the opponent name
contains a comma), refuting the claim that every free-text field is
escaped. -/
theorem claim_c2_counterexample :
    ((fixtureEvent exGrounds "Sandygate, Sandygate Road, Sheffield S10 5SE"
          "2024-2025" "NOW" exCommaOpp).map (fun l => l.get? 5)
        = Except.ok (some ("SUMMARY:" ++ "👕 Hallam FC v A, B")))
    ∧ ("👕 Hallam FC v A, B" : String) ≠ escape_ics_text "👕 Hallam FC v A, B" :=
  ⟨rfl, by decide⟩

/-- Claim C2 (amended): in every successfully derived event, only the
DESCRIPTION field is escaped; SUMMARY and LOCATION are emitted verbatim. -/
theorem claim_c2_only_description_escaped (grounds : Grounds)
    (home_address season now : String) (f : Fixture) (ev : List String)
    (h : fixtureEvent grounds home_address season now f = Except.ok ev) :
    ev.get? 5 = some ("SUMMARY:" ++ summaryText f)
    ∧ ev.get? 6 = some ("DESCRIPTION:" ++ escape_ics_text (descriptionText f))
    ∧ ∀ loc, resolveLocation grounds home_address f = Except.ok loc →
        ev.get? 7 = some ("LOCATION:" ++ loc) := by
  unfold fixtureEvent at h
  split at h
  · exact absurd h (by simp)
  · split at h
    · exact absurd h (by simp)
    · split at h
      · exact absurd h (by simp)
      · split at h
        · split at h
          · split at h
            · exact absurd h (by simp)
            · next location hloc =>
              simp only [Except.ok.injEq] at h
              subst h
              refine ⟨rfl, rfl, ?_⟩
              intro loc hloc2
              rw [hloc] at hloc2
              simp only [Except.ok.injEq] at hloc2
              subst hloc2
              rfl
        · exact absurd h (by simp)

/-- Claim C2 witness: the amended statement at the concrete home fixture
`exHome`, whose event block is `exHomeEvent`. -/
theorem claim_c2_witness :
    exHomeEvent.get? 5 = some ("SUMMARY:" ++ summaryText exHome)
    ∧ exHomeEvent.get? 6 = some ("DESCRIPTION:" ++ escape_ics_text (descriptionText exHome)) := by
  have h := claim_c2_only_description_escaped exGrounds
      "Sandygate, Sandygate Road, Sheffield S10 5SE" "2024-2025" "NOW" exHome exHomeEvent rfl
  exact ⟨h.1, h.2.1⟩

/-! ### Claim C3: determinism of the transformation -/

/-- Claim C3 counterexample: with a fixture lacking `last_updated`, the
current-time input (a fourth, hidden input of the transformation) changes
the output document, so the result is not a pure function of the fixture
list, grounds lookup and season alone. -/
theorem claim_c3_counterexample :
    generate_ics_content [exHome] "2024-2025" exGrounds "2025-01-01T00:00:00Z"
      ≠ generate_ics_content [exHome] "2024-2025" exGrounds "2025-06-01T00:00:00Z" := by
  intro h
  exact absurd (congrArg Except.toOption h) (by decide)

/-- Claim C3 (amended): when every fixture carries `last_updated`, the
output is a pure function of fixture list, grounds lookup and season: the
current-time input is irrelevant. -/
theorem claim_c3_pure_given_last_updated (data : List Fixture) (season : String)
    (grounds : Grounds) (now1 now2 : String)
    (h : ∀ f ∈ data, f.last_updated.isSome = true) :
    generate_ics_content data season grounds now1
      = generate_ics_content data season grounds now2 := by
  cases hH : groundsGet grounds "Hallam" with
  | none => simp [generate_ics_content, hH]
  | some hg =>
    simp [generate_ics_content, hH,
      eventsAll_now_irrelevant grounds (groundAddr hg) season now1 now2 data h]

/-- Claim C3 witness: the amended statement at a concrete fixture list
whose one fixture carries `last_updated`. -/
theorem claim_c3_witness :
    generate_ics_content [exCommaOpp] "2024-2025" exGrounds "2025-01-01T00:00:00Z"
      = generate_ics_content [exCommaOpp] "2024-2025" exGrounds "2025-06-01T00:00:00Z" :=
  claim_c3_pure_given_last_updated [exCommaOpp] "2024-2025" exGrounds
    "2025-01-01T00:00:00Z" "2025-06-01T00:00:00Z" (by decide)

/-! ### Claim C4: the derived identifier -/

/-- Claim C4: whenever the kickoff resolution succeeds, the identifier is
the dash-joined `hallam-fc-<season>-<opponent>-<competition>-<home|away>`
with opponent and competition lower-cased and stripped of non-alphanumeric
characters; and two fixtures agreeing on opponent, competition and
home/away (so possibly differing in date and kickoff) get identical
identifiers. -/
theorem claim_c4_uid (f1 f2 : Fixture) (season t1 t2 : String)
    (h1 : get_kick_off_time f1 = Except.ok t1)
    (h2 : get_kick_off_time f2 = Except.ok t2)
    (hop : f1.opponent = f2.opponent) (hco : f1.competition = f2.competition)
    (hho : f1.is_home = f2.is_home) :
    generate_uid f1 season
        = Except.ok ("hallam-fc-" ++ season ++ "-" ++ cleanAlnum f1.opponent ++ "-"
          ++ cleanAlnum f1.competition ++ "-"
          ++ (if f1.is_home then "home" else "away"))
    ∧ generate_uid f1 season = generate_uid f2 season := by
  constructor
  · simp [generate_uid, h1]
  · simp [generate_uid, h1, h2, hop, hco, hho]

/-- Claim C4 witness: the statement at two concrete fixtures identical
except for date and kickoff time. -/
theorem claim_c4_witness :
    generate_uid exUidA "2024-2025"
        = Except.ok ("hallam-fc-" ++ "2024-2025" ++ "-" ++ cleanAlnum exUidA.opponent
          ++ "-" ++ cleanAlnum exUidA.competition ++ "-"
          ++ (if exUidA.is_home then "home" else "away"))
    ∧ generate_uid exUidA "2024-2025" = generate_uid exUidB "2024-2025" :=
  claim_c4_uid exUidA exUidB "2024-2025" "19:00" "15:00" rfl rfl rfl rfl rfl

/-! ### Claim C5: the event ends exactly two hours after it starts -/

/-- Claim C5: for every valid date and time, the datetime two hours later
denotes exactly the start instant plus 120 minutes; the calendar date
rolls over correctly when the addition crosses midnight. -/
theorem claim_c5_end_two_hours (y m d hh mi : Nat) (hv : ValidDate y m d)
    (hh24 : hh < 24) (hmi60 : mi < 60) :
    toMinutes (addTwoHours y m d hh mi).1 (addTwoHours y m d hh mi).2.1
        (addTwoHours y m d hh mi).2.2.1 (addTwoHours y m d hh mi).2.2.2.1
        (addTwoHours y m d hh mi).2.2.2.2
      = toMinutes y m d hh mi + 120 := by
  clear hh24 hmi60
  have hnd := toordinal_nextDay y m d hv
  unfold addTwoHours
  by_cases ht : hh * 60 + mi + 120 < 1440
  · simp only [ht, if_true, if_pos]
    simp [toMinutes]
    omega
  · simp only [ht, if_false, if_neg]
    rcases hq : nextDay y m d with ⟨y2, m2, d2⟩
    rw [hq] at hnd
    simp only [toMinutes]
    simp only at hnd
    rw [hnd]
    omega

/-- Claim C5 witness: a 23:30 kickoff on 2024-06-30; the instant property
at that concrete datetime, and the emitted DTEND string rolling over to
01:30 on 2024-07-01. -/
theorem claim_c5_witness :
    (ValidDate 2024 6 30 ∧ (23 : Nat) < 24 ∧ (30 : Nat) < 60)
    ∧ toMinutes (addTwoHours 2024 6 30 23 30).1 (addTwoHours 2024 6 30 23 30).2.1
        (addTwoHours 2024 6 30 23 30).2.2.1 (addTwoHours 2024 6 30 23 30).2.2.2.1
        (addTwoHours 2024 6 30 23 30).2.2.2.2
      = toMinutes 2024 6 30 23 30 + 120
    ∧ ((fixtureEvent exGrounds "Sandygate, Sandygate Road, Sheffield S10 5SE"
          "2024-2025" "NOW" exLate).map (fun l => l.get? 4)
        = Except.ok (some "DTEND:20240701T013000Z")) :=
  ⟨⟨by decide, by decide, by decide⟩,
    claim_c5_end_two_hours 2024 6 30 23 30 (by decide) (by decide) (by decide),
    rfl⟩

/-! ### Claim C6: weekday-based default kickoff -/

/-- Claim C6: for every parseable date string, the default kickoff is
15:00 exactly when the weekday (Monday = 0) is 5 or 6, i.e. Saturday or
Sunday, and 19:45 exactly on Monday through Friday; the computation uses
only the calendar-date weekday. -/
theorem claim_c6_default_kickoff (s : String) (y m d : Nat)
    (h : parseDate s = some (y, m, d)) :
    (get_default_kick_off s = Except.ok "15:00" ↔ 5 ≤ weekday y m d)
    ∧ (get_default_kick_off s = Except.ok "19:45" ↔ weekday y m d < 5) := by
  have hne : ("15:00" : String) ≠ "19:45" := by decide
  have hne2 : ("19:45" : String) ≠ "15:00" := by decide
  by_cases hw : 5 ≤ weekday y m d <;>
    simp [get_default_kick_off, h, hw, hne, hne2] <;> omega

/-- Claim C6 witness: 2025-03-08 is a Saturday, and the default is
15:00. -/
theorem claim_c6_witness :
    (parseDate "2025-03-08" = some (2025, 3, 8))
    ∧ get_default_kick_off "2025-03-08" = Except.ok "15:00" :=
  ⟨rfl, (claim_c6_default_kickoff "2025-03-08" 2025 3 8 rfl).1.mpr (by decide)⟩

/-! ### Claim C7: missing home-club grounds entry -/

/-- Claim C7: whenever the grounds lookup lacks the home club, generation
fails with the fixed message, for every fixture list (in particular before
any event is emitted and with no partial document). -/
theorem claim_c7_missing_home_ground (data : List Fixture) (season : String)
    (grounds : Grounds) (now : String)
    (h : groundsGet grounds "Hallam" = none) :
    generate_ics_content data season grounds now
      = Except.error "Hallam not found in grounds.json. Please add Hallam to the grounds data." := by
  simp [generate_ics_content, h]

/-- Claim C7 witness: the statement at a concrete nonempty fixture list
and a lookup without the home club. -/
theorem claim_c7_witness :
    generate_ics_content [exHome] "2024-2025" exGroundsNoHallam "NOW"
      = Except.error "Hallam not found in grounds.json. Please add Hallam to the grounds data." :=
  claim_c7_missing_home_ground [exHome] "2024-2025" exGroundsNoHallam "NOW" rfl

/-! ### Claim C8: all-or-nothing generation -/

/-- Claim C8: if deriving the event of any fixture in the list fails, the
whole generation returns no document at all. -/
theorem claim_c8_all_or_nothing (data : List Fixture) (season now : String)
    (grounds : Grounds) (hg : Ground)
    (hH : groundsGet grounds "Hallam" = some hg) (f : Fixture) (e : String)
    (hf : f ∈ data)
    (he : fixtureEvent grounds (groundAddr hg) season now f = Except.error e) :
    ¬ ∃ doc, generate_ics_content data season grounds now = Except.ok doc := by
  rintro ⟨doc, hdoc⟩
  obtain ⟨e2, h2⟩ := eventsAll_error_of_mem grounds (groundAddr hg) season now data f e hf he
  rw [generate_ics_content, hH] at hdoc
  simp [h2] at hdoc

/-- Claim C8 witness: a list with one good fixture and one fixture with an
unparseable date produces no document. -/
theorem claim_c8_witness :
    ¬ ∃ doc, generate_ics_content [exHome, exBadDate] "2024-2025" exGrounds "NOW"
        = Except.ok doc :=
  claim_c8_all_or_nothing [exHome, exBadDate] "2024-2025" "NOW" exGrounds exVenue
    rfl exBadDate "time data does not match format: 2024-13-01 15:00"
    (by simp [exHome, exBadDate]) rfl

/-! ### Claim C9: the escaping round-trip -/

/-- Claim C9 counterexample: the two-character string backslash-n escapes
to backslash-backslash-n, which the reverse substitutions map to
backslash-newline, not back to the original. -/
theorem claim_c9_counterexample :
    unescape_ics_text (escape_ics_text "\\n") ≠ "\\n" := by decide

/-- Claim C9 (amended): applying the inverse substitutions in reverse
order to the escaped text reproduces the original for every string in
which no backslash is immediately followed by the letter n (backslashes,
semicolons, commas and newlines are otherwise unrestricted). -/
theorem claim_c9_roundtrip (s : String) (h : noBslashN s.data = true) :
    unescape_ics_text (escape_ics_text s) = s := by
  cases s with
  | mk d =>
    show String.mk (unescapeList (escapeList d)) = String.mk d
    rw [unescape_escape_list d h]

/-- Claim C9 witness: the amended statement at a concrete string
containing a backslash, a semicolon, a comma and a newline. -/
theorem claim_c9_witness :
    noBslashN ("a\\b;c,d\ne".data) = true
    ∧ unescape_ics_text (escape_ics_text "a\\b;c,d\ne") = "a\\b;c,d\ne" :=
  ⟨by decide, claim_c9_roundtrip "a\\b;c,d\ne" (by decide)⟩

/-! ### Claim C10: blank kickoff value falls back to the default -/

/-- Claim C10: a fixture whose `kick_off` key holds an empty (falsy) value
resolves its kickoff to the weekday default, exactly as if the key were
absent. -/
theorem claim_c10_blank_kickoff (f : Fixture) (h : f.kick_off = some "") :
    get_kick_off_time f = get_default_kick_off f.date
    ∧ get_kick_off_time f = get_kick_off_time { f with kick_off := none } := by
  simp [get_kick_off_time, h]

/-- Claim C10 witness: the statement at `exHome` with an empty `kick_off`
value. -/
theorem claim_c10_witness :
    get_kick_off_time { exHome with kick_off := some "" }
        = get_default_kick_off exHome.date
    ∧ get_kick_off_time { exHome with kick_off := some "" }
        = get_kick_off_time exHome :=
  claim_c10_blank_kickoff { exHome with kick_off := some "" } rfl


end HallamFC
